import Mathlib

/-!
# Verification of the case-retrieval and relevance-ranking subsystem

This development gives a shallow embedding, in Lean 4, of the retrieval core of
the anesthesia chatbot repository:

* the keyword relevance scorer `findRelevantCases` (server file, lines 274-332),
* the in-memory vector store `SimpleVectorStore` (`cosineSimilarity`,
  `addVectors`, `search`),
* the RAG service (`createSimpleEmbedding`, `generateEmbedding` with its
  cache, `retrieveRelevantCases`, `formatCasesForPrompt`),
* the chat endpoint's choice between the RAG path and the keyword path.

Modelling conventions:

* JavaScript numbers are modelled as exact rationals (`ℚ`).  The one place
  where IEEE-754 semantics is observable in the retrieval logic is the
  `0/0 = NaN` produced by `cosineSimilarity` on a zero-magnitude vector; this
  is modelled explicitly by the `CosSim` representation below.
* `Math.random()` is modelled as an explicit stream `ℕ → ℚ` of draws, making
  the (im)purity of the fallback embedder a provable matter.
* String operations are modelled on the underlying character lists
  (`String.data`); `toLowerCase` is per-character ASCII lowering, matching the
  behaviour of the JavaScript code on the ASCII texts it manipulates.
* `Array.prototype.sort(c)` with comparator `c(a,b) = b.score - a.score` is
  modelled by the stable `List.mergeSort` with the "in order" relation
  `¬ (score a < score b)`; where the comparator returns `NaN`, ECMAScript
  treats the pair as equal, which is exactly how the relation below behaves.
-/

/-! ## String helpers (JavaScript `includes`, `toLowerCase`, regex counting) -/

/-- `startsWithList pat l` decides whether `pat` is an initial segment of `l`. -/
def startsWithList : List Char → List Char → Bool
  | [], _ => true
  | _ :: _, [] => false
  | p :: ps, c :: cs => p == c && startsWithList ps cs

/-- One step of non-overlapping occurrence counting, with explicit fuel
(the fuel is the length of the text, which bounds the number of steps). -/
def countOccurFuel : ℕ → List Char → List Char → ℕ
  | 0, _, _ => 0
  | _ + 1, [], _ => 0
  | fuel + 1, c :: rest, pat =>
    if startsWithList pat (c :: rest) then
      1 + countOccurFuel fuel (List.drop (pat.length - 1) rest) pat
    else
      countOccurFuel fuel rest pat

/-- Number of non-overlapping occurrences of `pat` in `text`, scanning left to
right — the length of `text.match(new RegExp(pat, 'g'))` in JavaScript.  The
medical vocabulary never contains the empty pattern; for completeness an empty
pattern counts 0. -/
def countOccur (text pat : List Char) : ℕ :=
  if pat.isEmpty then 0 else countOccurFuel text.length text pat

/-- JavaScript `text.includes(pat)` on character lists: some suffix of `text`
starts with `pat`. -/
def containsList (text pat : List Char) : Bool :=
  if pat.isEmpty then true else
  match text with
  | [] => false
  | c :: cs => startsWithList pat (c :: cs) || containsList cs pat

/-- JavaScript `s.includes(pat)` for strings. -/
def containsSub (s pat : String) : Bool :=
  containsList s.data pat.data

/-- JavaScript `s.toLowerCase()`: per-character ASCII lowering (all the string
constants compared by the retrieval code are ASCII). -/
def lowerStr (s : String) : String :=
  String.mk (s.data.map Char.toLower)

/-! ## Data model of a clinical case, as read by the keyword scorer

The scorer accesses cases by optional chaining (`caseData.outcome?.…`); every
field that can be absent in the loaded JSON is an `Option`.  The scorer also
matches against `JSON.stringify(caseData)`; that serialized text is carried as
the field `serializedText` (the scorer never inspects its structure, only runs
case-insensitive substring searches over it). -/

structure Complication where
  event : String
deriving DecidableEq, Repr

structure RegionalDetails where
  blockType : Option String
deriving DecidableEq, Repr

structure Anesthetic where
  technique : Option String
  regionalDetails : Option RegionalDetails
deriving DecidableEq, Repr

structure ProcedureInfo where
  name : Option String
deriving DecidableEq, Repr

structure PatientInfo where
  age : Option ℚ
deriving DecidableEq, Repr

structure CaseOutcome where
  criticalIncident : Bool
deriving DecidableEq, Repr

structure Case where
  patient : Option PatientInfo
  procedure : Option ProcedureInfo
  anesthetic : Option Anesthetic
  complications : Option (List Complication)
  outcome : Option CaseOutcome
  serializedText : String
deriving DecidableEq, Repr

/-- A case paired with the relevance score the keyword scorer computed for it
(the JavaScript `{...caseData, relevanceScore: score}`). -/
structure ScoredCase where
  caseData : Case
  relevanceScore : ℕ
deriving DecidableEq, Repr

/-! ## The keyword relevance scorer (`findRelevantCases`)

Each scoring rule of the source is its own definition; the total score is
their sum, mirroring the sequence of `score += …` statements. -/

/-- `if (caseData.outcome?.criticalIncident) score += 10`. -/
def critBonus (caseData : Case) : ℕ :=
  match caseData.outcome with
  | some o => if o.criticalIncident then 10 else 0
  | none => 0

/-- `caseData.anesthetic?.technique?.includes('regional')` (case-sensitive). -/
def techniqueHasRegional (caseData : Case) : Bool :=
  match caseData.anesthetic with
  | some an =>
    match an.technique with
    | some t => containsSub t "regional"
    | none => false
  | none => false

/-- OSA rule: query mentions OSA and the serialized case text contains "osa";
+15, plus a further +20 when the query also mentions "spinal" and the
anesthetic technique contains "regional". -/
def osaBonus (queryLower : String) (caseData : Case) : ℕ :=
  if containsSub queryLower "osa" || containsSub queryLower "sleep apnea" ||
      containsSub queryLower "obstructive sleep" then
    if containsSub (lowerStr caseData.serializedText) "osa" then
      15 + (if containsSub queryLower "spinal" && techniqueHasRegional caseData then 20 else 0)
    else 0
  else 0

/-- Cardiac-arrest rule: query mentions "arrest"/"code" and some complication
event contains "arrest"; +15. -/
def arrestBonus (queryLower : String) (caseData : Case) : ℕ :=
  if containsSub queryLower "arrest" || containsSub queryLower "code" then
    match caseData.complications with
    | some comps =>
      if comps.any (fun c => containsSub (lowerStr c.event) "arrest") then 15 else 0
    | none => 0
  else 0

/-- `caseData.anesthetic?.regionalDetails?.blockType?.toLowerCase().includes('spinal')`. -/
def blockTypeHasSpinal (caseData : Case) : Bool :=
  match caseData.anesthetic with
  | some an =>
    match an.regionalDetails with
    | some rd =>
      match rd.blockType with
      | some bt => containsSub (lowerStr bt) "spinal"
      | none => false
    | none => false
  | none => false

/-- Neuraxial rule: query mentions "spinal"/"epidural" and the block type
contains "spinal"; +5. -/
def neuraxBonus (queryLower : String) (caseData : Case) : ℕ :=
  if containsSub queryLower "spinal" || containsSub queryLower "epidural" then
    if blockTypeHasSpinal caseData then 5 else 0
  else 0

/-- The fixed drug list of the scorer. -/
def drugList : List String :=
  ["propofol", "midazolam", "fentanyl", "rocuronium", "sevoflurane"]

/-- Drug rule: +3 for each listed drug mentioned in the query and present in
the serialized case text. -/
def drugBonus (queryLower : String) (caseData : Case) : ℕ :=
  3 * (drugList.countP
    (fun drug => containsSub queryLower drug &&
      containsSub (lowerStr caseData.serializedText) drug))

/-- Procedure rule: the query contains the case's (truthy) procedure name; +4. -/
def procBonus (queryLower : String) (caseData : Case) : ℕ :=
  match caseData.procedure with
  | some p =>
    match p.name with
    | some n => if n ≠ "" && containsSub queryLower (lowerStr n) then 4 else 0
    | none => 0
  | none => 0

/-- Pediatric rule: query mentions "pediatric" and patient age < 18; +3.
(`undefined < 18` is false in JavaScript, hence the `none` branch.) -/
def pedBonus (queryLower : String) (caseData : Case) : ℕ :=
  if containsSub queryLower "pediatric" then
    match caseData.patient with
    | some p => match p.age with
      | some a => if a < 18 then 3 else 0
      | none => 0
    | none => 0
  else 0

/-- Elderly rule: query mentions "elderly" and patient age > 65; +3. -/
def eldBonus (queryLower : String) (caseData : Case) : ℕ :=
  if containsSub queryLower "elderly" then
    match caseData.patient with
    | some p => match p.age with
      | some a => if 65 < a then 3 else 0
      | none => 0
    | none => 0
  else 0

/-- The full additive score of one case against an (already lowercased)
query, the body of the `cases.map` closure in `findRelevantCases`. -/
def scoreCase (queryLower : String) (caseData : Case) : ℕ :=
  critBonus caseData + osaBonus queryLower caseData + arrestBonus queryLower caseData +
    neuraxBonus queryLower caseData + drugBonus queryLower caseData +
    procBonus queryLower caseData + pedBonus queryLower caseData +
    eldBonus queryLower caseData

/-- All cases of the corpus paired with their scores, in corpus order. -/
def scoredCasesFor (query : String) (cases : List Case) : List ScoredCase :=
  cases.map (fun c => { caseData := c, relevanceScore := scoreCase (lowerStr query) c })

/-- The "in order" relation of the JavaScript
`sort((a, b) => b.relevanceScore - a.relevanceScore)`: `a` may stay before `b`
exactly when the comparator is ≤ 0, i.e. descending by score. -/
def keywordLe (a b : ScoredCase) : Bool :=
  b.relevanceScore ≤ a.relevanceScore

/-- `scoredCases.filter(c => c.relevanceScore > 0)`. -/
def filteredScored (query : String) (cases : List Case) : List ScoredCase :=
  (scoredCasesFor query cases).filter (fun c => 0 < c.relevanceScore)

/-- The filtered scored cases, stably sorted descending by score. -/
def sortedScored (query : String) (cases : List Case) : List ScoredCase :=
  (filteredScored query cases).mergeSort keywordLe

/-- `findRelevantCases(query, cases)`: early return on an empty corpus, then
score, filter strictly-positive, stable sort descending, truncate to 3. -/
def findRelevantCases (query : String) (cases : List Case) : List ScoredCase :=
  if cases.isEmpty then [] else (sortedScored query cases).take 3

/-! ## The in-memory vector store (`SimpleVectorStore`)

`cosineSimilarity(vecA, vecB)` computes
`dot / (Math.sqrt(magSqA) * Math.sqrt(magSqB))`.  The value is represented
exactly by the pair `CosSim`: the rational dot product (`none` when the
reduction read past the end of `vecB`, i.e. a `vecB[i]` access returned
`undefined`, which poisons the sum to `NaN`), and the rational
`den2 = magSq vecA * magSq vecB`, the square of the denominator.  The
represented real number is `dot / √den2`; it is `NaN` exactly when the dot
product is poisoned or `den2 = 0` (in the latter case one vector is
all-zero, so the dot product is `0` and the JavaScript division is `0/0`).
All comparisons the retrieval pipeline performs on similarity scores are
decided exactly on this representation, by sign analysis and squaring. -/

/-- Sum of squares of the entries — the argument of `Math.sqrt` in
`magnitudeA`/`magnitudeB`. -/
def magSq (v : List ℚ) : ℚ :=
  (v.map (fun a => a * a)).sum

/-- The dot product `vecA.reduce((sum, a, i) => sum + a * vecB[i], 0)` when
`vecB` is at least as long as `vecA` (the reduction ranges over `vecA`'s
indices, so a longer `vecB` is silently truncated). -/
def dotTrunc (vecA vecB : List ℚ) : ℚ :=
  ((vecA.zip vecB).map (fun p => p.1 * p.2)).sum

/-- Exact representation of the value of `cosineSimilarity`: real value
`dot / √den2` when `dot? = some dot` and `den2 ≠ 0`, otherwise `NaN`. -/
structure CosSim where
  dot? : Option ℚ
  den2 : ℚ
deriving DecidableEq, Repr

/-- `SimpleVectorStore.cosineSimilarity(vecA, vecB)`. -/
def cosineSimilarity (vecA vecB : List ℚ) : CosSim :=
  { dot? := if vecB.length < vecA.length then none else some (dotTrunc vecA vecB),
    den2 := magSq vecA * magSq vecB }

/-- Whether the represented value is `NaN`.  (For the values produced by
`cosineSimilarity`, `den2 = 0` forces the dot product to be `0`, so the
JavaScript division is `0/0 = NaN`, never `±Infinity`.) -/
def CosSim.isNaN (s : CosSim) : Bool :=
  s.dot?.isNone || s.den2 == 0

/-- Exact strict comparison of represented values: `s < t` over the reals,
`false` whenever either side is `NaN` (IEEE-754 comparisons with `NaN` are
false).  Derivation, for `den2 > 0` on both sides: `ds/√Ds < dt/√Dt` iff
`ds·√Dt < dt·√Ds`, decided by sign analysis and squaring. -/
def CosSim.ltB (s t : CosSim) : Bool :=
  match s.dot?, t.dot? with
  | some ds, some dt =>
    if s.den2 == 0 || t.den2 == 0 then false
    else if ds < 0 then
      if 0 ≤ dt then true else decide (dt * dt * s.den2 < ds * ds * t.den2)
    else
      decide (0 < dt) && decide (ds * ds * t.den2 < dt * dt * s.den2)
  | _, _ => false

/-- Exact comparison of the represented value with a rational threshold
`q ≥ 0` (the pipeline uses `q = 0.3`): `value > q`, `false` on `NaN`.
For `q ≥ 0` this requires a positive dot product and `dot² > q²·den2`. -/
def CosSim.gtQ (s : CosSim) (q : ℚ) : Bool :=
  match s.dot? with
  | some d => decide (0 < s.den2) && decide (0 ≤ q) && decide (0 < d) &&
      decide (q * q * s.den2 < d * d)
  | none => false

/-- Metadata bag stored next to each vector; the fields consumed by
`formatCasesForPrompt` (string-valued fields carry the rendering of the
underlying JavaScript value). -/
structure Metadata where
  procedure : String
  patientAge : String
  asa : String
  technique : String
  complications : List String
  clinicalPearls : List String
  keyTakeaways : List String
deriving DecidableEq, Repr

/-- The in-memory store: parallel arrays of vectors and metadata.  A metadata
slot can hold `undefined` (`none`) when `addVectors` was called with fewer
metadata entries than embeddings. -/
structure SimpleVectorStore where
  vectors : List (List ℚ)
  metadata : List (Option Metadata)
deriving DecidableEq, Repr

/-- `addVectors(embeddings, metadataList)`: pushes each embedding and the
metadata at the same index (`undefined` when the metadata list is shorter).
The source performs no dimension validation of any kind. -/
def SimpleVectorStore.addVectors (store : SimpleVectorStore)
    (embeddings : List (List ℚ)) (metadataList : List Metadata) : SimpleVectorStore :=
  { vectors := store.vectors ++ embeddings,
    metadata := store.metadata ++ (List.range embeddings.length).map (fun i => metadataList.get? i) }

/-- One element of the `similarities` array built by `search`. -/
structure SearchResult where
  score : CosSim
  metadata : Option Metadata
  index : ℕ
deriving DecidableEq, Repr

/-- The "in order" relation of `similarities.sort((a, b) => b.score - a.score)`:
`a` may stay before `b` when the comparator is ≤ 0 — i.e. not
`a.score < b.score` — with `NaN` comparator results treated as 0 (equal), as
ECMAScript prescribes. -/
def searchLe (a b : SearchResult) : Bool :=
  ! a.score.ltB b.score

/-- `search(queryEmbedding, topK)`: similarity of the query against every
stored vector (in store order), stable sort descending by score, then
`slice(0, topK)`. -/
def SimpleVectorStore.search (store : SimpleVectorStore)
    (queryEmbedding : List ℚ) (topK : ℕ) : List SearchResult :=
  let similarities := store.vectors.enum.map (fun p =>
    { score := cosineSimilarity queryEmbedding p.2,
      metadata := (store.metadata.get? p.1).join,
      index := p.1 : SearchResult })
  (similarities.mergeSort searchLe).take topK

/-- A retrieval result handed to prompt formatting: the stored metadata (the
JavaScript spread `{...r.metadata}`) plus the relevance score. -/
structure RankedCase where
  metadata : Option Metadata
  relevanceScore : CosSim
deriving DecidableEq, Repr

/-- The vector-path body of `retrieveRelevantCases` after the query embedding
has been produced: search with `topK`, keep scores strictly above `0.3`,
repackage. -/
def retrieveRelevantCases (store : SimpleVectorStore)
    (queryEmbedding : List ℚ) (topK : ℕ) : List RankedCase :=
  let results := store.search queryEmbedding topK
  let relevantResults := results.filter (fun r => r.score.gtQ (3 / 10))
  relevantResults.map (fun r => { metadata := r.metadata, relevanceScore := r.score })

/-! ## The embedder and its cache (`generateEmbedding`, `createSimpleEmbedding`)

`createSimpleEmbedding` pads the term-count vector with `Math.random() * 0.01`
draws.  `Math.random()` is unseeded and stateful; it is modelled as an
explicit stream `rand : ℕ → ℚ` of the successive draws the call consumes.
`generateEmbedding` consults the `embeddingCache` map, calls the OpenAI
endpoint when a key is configured, and falls back to `createSimpleEmbedding`
both when no key is set and when the external call throws; only a successful
external response is ever written to the cache. -/

/-- The fixed vocabulary of `createSimpleEmbedding` (45 terms). -/
def medicalTerms : List String :=
  ["intubation", "extubation", "hypotension", "hypertension", "bradycardia",
   "tachycardia", "bronchospasm", "laryngospasm", "aspiration", "difficult airway",
   "propofol", "sevoflurane", "fentanyl", "rocuronium", "sugammadex",
   "succinylcholine", "midazolam", "ketamine", "dexmedetomidine", "remifentanil",
   "spinal", "epidural", "general", "regional", "MAC", "RSI", "awake",
   "pediatric", "obstetric", "cardiac", "neurosurgery", "trauma", "emergency",
   "complication", "hemorrhage", "transfusion", "anaphylaxis", "malignant hyperthermia",
   "PONV", "pain", "opioid", "nerve block", "catheter", "arterial line", "central line"]

/-- `createSimpleEmbedding(text)`: `0.1 ×` the case-insensitive occurrence
count of each vocabulary term, then `Math.random() * 0.01` padding up to
dimension 384.  The stream `rand` supplies the successive `Math.random()`
draws of this call. -/
def createSimpleEmbedding (rand : ℕ → ℚ) (text : String) : List ℚ :=
  let textLower := lowerStr text
  let base := medicalTerms.map
    (fun term => (countOccur textLower.data (lowerStr term).data : ℚ) * (1 / 10))
  base ++ (List.range (384 - base.length)).map (fun i => rand i * (1 / 100))

/-- Configuration and behaviour of the external embedding service:
whether `VITE_OPENAI_API_KEY` is set, and the outcome of the HTTP call for a
given input text (`Except.error` models a thrown/timed-out request). -/
structure EmbedEnv where
  apiKeySet : Bool
  apiResponse : String → Except Unit (List ℚ)

/-- The mutable service state: the `embeddingCache` map (most recent binding
first, as an association list). -/
structure RAGState where
  embeddingCache : List (String × List ℚ)

/-- `generateEmbedding(text)`: cache hit, else external call when a key is
configured (caching only the successful response), else — and on any thrown
error — the local fallback embedding, which is not cached. -/
def generateEmbedding (env : EmbedEnv) (rand : ℕ → ℚ) (st : RAGState)
    (text : String) : List ℚ × RAGState :=
  match st.embeddingCache.lookup text with
  | some e => (e, st)
  | none =>
    if env.apiKeySet then
      match env.apiResponse text with
      | .ok e => (e, { embeddingCache := (text, e) :: st.embeddingCache })
      | .error _ => (createSimpleEmbedding rand text, st)
    else
      (createSimpleEmbedding rand text, st)

/-- The full `retrieveRelevantCases(query, topK)` of the RAG service: embed
the query (threading the cache state), search, threshold, repackage. -/
def retrieveRelevantCasesFull (env : EmbedEnv) (rand : ℕ → ℚ) (st : RAGState)
    (store : SimpleVectorStore) (query : String) (topK : ℕ) :
    List RankedCase × RAGState :=
  let p := generateEmbedding env rand st query
  (retrieveRelevantCases store p.1 topK, p.2)

/-! ## Prompt formatting (`formatCasesForPrompt`)

The formatter prints each case block with a fixed field order and the
relevance score as `(score * 100).toFixed(1)` percent.  The score digits are
computed exactly from the `CosSim` representation: for a represented value
`v = dot/√den2`, `toFixed(1)` of `100·v` is `n/10` where `n = ⌊1000·v + 1/2⌋`
(ECMAScript picks the larger candidate on ties).  Since `|v| ≤ 1` by
Cauchy-Schwarz, `n ∈ [-1000, 1000]` and is computed by counting the integers
`m ∈ [-1000, 1000]` with `(2m-1)·√den2 ≤ 2000·dot`, each comparison decided
by sign analysis and squaring. -/

/-- Decides `a · √D ≤ b` for `D > 0`, by sign analysis and squaring. -/
def sqrtMulLe (a : ℤ) (D : ℚ) (b : ℚ) : Bool :=
  if a ≤ 0 then (0 ≤ b) || decide (b * b ≤ (a * a : ℚ) * D)
  else decide (0 < b) && decide ((a * a : ℚ) * D ≤ b * b)

/-- `⌊1000 · value + 1/2⌋` of the represented value (meaningful for values in
`[-1, 1]`, which covers every genuine cosine); `0` on `NaN`, never consulted
there because `scoreText` prints `NaN` first. -/
def CosSim.tenths (s : CosSim) : ℤ :=
  match s.dot? with
  | some d =>
    if s.den2 ≤ 0 then 0
    else ((List.range 2001).countP
      (fun k => sqrtMulLe (2 * (k : ℤ) - 2001) s.den2 (2000 * d)) : ℤ) - 1001
  | none => 0

/-- `(score * 100).toFixed(1)`: one decimal digit, sign in front. -/
def scoreText (s : CosSim) : String :=
  if s.isNaN then "NaN" else
  let n := s.tenths
  if n < 0 then "-" ++ toString ((-n) / 10) ++ "." ++ toString ((-n) % 10)
  else toString (n / 10) ++ "." ++ toString (n % 10)

/-- Rendering of a possibly-`undefined` string field in a template literal. -/
def renderOpt (f : Metadata → String) (m : Option Metadata) : String :=
  match m with
  | some md => f md
  | none => "undefined"

/-- `JSON.stringify` of an array of strings (used for the complications line). -/
def jsonStringArray (xs : List String) : String :=
  "[" ++ String.intercalate "," (xs.map (fun x => "\"" ++ x ++ "\"")) ++ "]"

/-- A list-valued metadata field, `[]` when the metadata is `undefined`
(optional chaining then skips the section). -/
def listField (f : Metadata → List String) (m : Option Metadata) : List String :=
  match m with
  | some md => f md
  | none => []

/-- One `**Case i+1**` block of the prompt. -/
def caseBlock (i : ℕ) (c : RankedCase) : String :=
  "**Case " ++ toString (i + 1) ++ "**: " ++ renderOpt Metadata.procedure c.metadata ++
    " - " ++ renderOpt Metadata.patientAge c.metadata ++
    " (ASA " ++ renderOpt Metadata.asa c.metadata ++ ")\n" ++
  "Technique: " ++ renderOpt Metadata.technique c.metadata ++ "\n" ++
  (if (listField Metadata.complications c.metadata).length > 0 then
    "⚠️ Complications: " ++ jsonStringArray (listField Metadata.complications c.metadata) ++ "\n"
   else "") ++
  (if (listField Metadata.clinicalPearls c.metadata).length > 0 then
    "💡 Clinical Pearls: " ++
      String.intercalate "; " (listField Metadata.clinicalPearls c.metadata) ++ "\n"
   else "") ++
  (if (listField Metadata.keyTakeaways c.metadata).length > 0 then
    "🔑 Key Takeaways: " ++
      String.intercalate "; " (listField Metadata.keyTakeaways c.metadata) ++ "\n"
   else "") ++
  "Relevance Score: " ++ scoreText c.relevanceScore ++ "%\n\n"

/-- The fixed header of a non-empty prompt block. -/
def promptHeader : String :=
  "\n\n📋 RELEVANT CLINICAL CASES FROM YOUR DATABASE:\n\n"

/-- The fixed footer of a non-empty prompt block. -/
def promptFooter : String :=
  "⚠️ Please reference these specific cases in your response when relevant.\n"

/-- `formatCasesForPrompt(cases)`: the empty string when `cases` is absent
(`undefined`/`null`) or empty, otherwise header, one block per case, footer. -/
def formatCasesForPrompt (cases? : Option (List RankedCase)) : String :=
  match cases? with
  | none => ""
  | some cases =>
    if cases.length = 0 then "" else
    promptHeader ++ String.join (cases.enum.map (fun p => caseBlock p.1 p.2)) ++ promptFooter

/-! ## The chat endpoint's retrieval choice

The `/api/chat` handler uses the RAG path when the vector store was loaded at
startup (`ragInitialized`), and the keyword scorer over the raw corpus only
otherwise.  `CaseSelection` records which path ran and with what result. -/

inductive CaseSelection where
  | rag : List RankedCase → CaseSelection
  | keyword : List ScoredCase → CaseSelection
deriving DecidableEq

/-- The retrieval performed by the chat endpoint for one message:
`retrieveRelevantCases(message, 5)` when RAG is initialized, else
`findRelevantCases(message, sampleCases)`. -/
def chatCaseSelection (ragInitialized : Bool) (env : EmbedEnv) (rand : ℕ → ℚ)
    (st : RAGState) (store : SimpleVectorStore) (sampleCases : List Case)
    (message : String) : CaseSelection :=
  if ragInitialized then
    .rag (retrieveRelevantCasesFull env rand st store message 5).1
  else
    .keyword (findRelevantCases message sampleCases)

/-! ## Concrete instances used by witnesses and counterexamples -/

/-- The scenario query of the specification. -/
def osaQuery : String := "OSA patient with spinal anesthesia"

/-- A case carrying exactly the three scenario signals: critical incident,
"OSA" in the serialized text, "regional" in the technique — and nothing
else that scores against the scenario query. -/
def caseOSA : Case :=
  { patient := none, procedure := none,
    anesthetic := some { technique := some "regional", regionalDetails := none },
    complications := none, outcome := some { criticalIncident := true },
    serializedText := "comorbidities: severe OSA; technique: regional" }

/-- The same case with `regionalDetails.blockType = "spinal"` — a perfectly
plausible record for a spinal anesthetic — which also triggers the
neuraxial `+5` rule against the scenario query. -/
def caseOSASpinal : Case :=
  { caseOSA with
    anesthetic := some { technique := some "regional",
                         regionalDetails := some { blockType := some "spinal" } } }

/-- A case lacking all scenario signals. -/
def caseNoSignals : Case :=
  { patient := none, procedure := none,
    anesthetic := some { technique := some "general", regionalDetails := none },
    complications := none, outcome := some { criticalIncident := false },
    serializedText := "routine appendectomy under general anesthesia" }

/-- A minimal critical-incident case (used by the C5 scenario: the keyword
scorer gives it 10 points for any query). -/
def caseCrit : Case :=
  { patient := none, procedure := none, anesthetic := none,
    complications := none, outcome := some { criticalIncident := true },
    serializedText := "" }

/-- Query vector for the sortedness counterexample. -/
def cq : List ℚ := [1, 0]

/-- Stored vector with cosine `3/5` against `cq`. -/
def cv60 : List ℚ := [3, 4]

/-- The zero vector: `NaN` similarity against any query. -/
def cvZero : List ℚ := [0, 0]

/-- Stored vector with cosine `4/5` against `cq`. -/
def cv80 : List ℚ := [4, 3]

/-- A store interleaving zero vectors between two good vectors of
increasing similarity. -/
def storeMix : SimpleVectorStore :=
  { vectors := [cv60, cvZero, cvZero, cv80], metadata := [none, none, none, none] }

/-- The four search results the mixed store produces, in store order. -/
def srMix (i : ℕ) (v : List ℚ) : SearchResult :=
  { score := cosineSimilarity cq v, metadata := none, index := i }

/-- An external-embedder environment whose call always throws. -/
def envFail : EmbedEnv :=
  { apiKeySet := true, apiResponse := fun _ => .error () }

/-- No API key configured: the fallback embedder always runs. -/
def envNoKey : EmbedEnv :=
  { apiKeySet := false, apiResponse := fun _ => .error () }

/-- A `Math.random()` stream returning only zeros (a possible, if
vanishingly unlikely, sequence of draws). -/
def randZero : ℕ → ℚ := fun _ => 0

/-- A `Math.random()` stream returning only `1/2`. -/
def randHalf : ℕ → ℚ := fun _ => 1 / 2

/-- The fallback embedding of the empty query under the all-halves stream:
zero term counts, every padding slot `1/200`. -/
def embHalf : List ℚ := createSimpleEmbedding randHalf ""

/-- A store holding exactly `embHalf` (perfect similarity with itself). -/
def storeHalf : SimpleVectorStore := { vectors := [embHalf], metadata := [none] }

/-- An external-embedder environment that always answers `[1]`. -/
def envOk : EmbedEnv :=
  { apiKeySet := true, apiResponse := fun _ => .ok [1] }

/-- Metadata for the dimension-mismatch scenario. -/
def metaA : Metadata :=
  { procedure := "lap appy", patientAge := "30 years", asa := "2",
    technique := "general", complications := [], clinicalPearls := [], keyTakeaways := [] }

/-- Metadata of the mismatched entry. -/
def metaB : Metadata :=
  { procedure := "craniotomy", patientAge := "54 years", asa := "3",
    technique := "general", complications := ["bleeding"], clinicalPearls := [],
    keyTakeaways := [] }

/-- A store holding one two-dimensional vector. -/
def storeDim2 : SimpleVectorStore := { vectors := [[1, 0]], metadata := [some metaA] }

/-! ## General lemmas -/

/-- `keywordLe` is transitive (it compares natural-number scores). -/
theorem keywordLe_trans (a b c : ScoredCase) :
    keywordLe a b → keywordLe b c → keywordLe a c := by
  simp only [keywordLe, decide_eq_true_eq]
  omega

/-- `keywordLe` is total. -/
theorem keywordLe_total (a b : ScoredCase) : keywordLe a b || keywordLe b a := by
  simp only [keywordLe, Bool.or_eq_true, decide_eq_true_eq]
  omega

/-- Evaluation of `mergeSort` on a two-element list. -/
theorem mergeSort_pair (le : α → α → Bool) (a b : α) :
    [a, b].mergeSort le = if le a b then [a, b] else [b, a] := by
  unfold List.mergeSort
  simp [List.splitInTwo, List.splitAt_eq, List.merge]

/-- `mergeSort` on a four-element list splits into two sorted pairs and merges. -/
theorem mergeSort_four (le : α → α → Bool) (a b c d : α) :
    [a, b, c, d].mergeSort le = ([a, b].mergeSort le).merge ([c, d].mergeSort le) le := by
  conv_lhs => unfold List.mergeSort
  simp [List.splitInTwo, List.splitAt_eq]

/-- Scores of members of the filtered scored list are strictly positive. -/
theorem mem_filteredScored_pos {query : String} {cases : List Case} {x : ScoredCase}
    (hx : x ∈ filteredScored query cases) : 0 < x.relevanceScore := by
  have := (List.mem_filter.mp hx).2
  simpa using this

/-- The sorted scored list is a permutation of the filtered one, so has the
same members. -/
theorem mem_sortedScored {query : String} {cases : List Case} {x : ScoredCase} :
    x ∈ sortedScored query cases ↔ x ∈ filteredScored query cases := by
  unfold sortedScored
  exact List.mem_mergeSort

/-- The sorted scored list is pairwise descending by score. -/
theorem sortedScored_pairwise (query : String) (cases : List Case) :
    (sortedScored query cases).Pairwise (fun a b => keywordLe a b) :=
  List.sorted_mergeSort keywordLe_trans keywordLe_total _

/-- `findRelevantCases` is the 3-element prefix of the sorted scored list
(also when the corpus is empty, where both sides are `[]`). -/
theorem findRelevantCases_eq_take (query : String) (cases : List Case) :
    findRelevantCases query cases = (sortedScored query cases).take 3 := by
  unfold findRelevantCases
  split
  · next h =>
    have : cases = [] := List.isEmpty_iff.mp h
    subst this
    simp [sortedScored, filteredScored, scoredCasesFor]
  · rfl

/-- Members of the output of `findRelevantCases` come from the filtered list. -/
theorem mem_findRelevantCases {query : String} {cases : List Case} {x : ScoredCase}
    (hx : x ∈ findRelevantCases query cases) : x ∈ filteredScored query cases := by
  rw [findRelevantCases_eq_take] at hx
  exact mem_sortedScored.mp ((List.take_sublist _ _).subset hx)

/-- Against the scenario query, the cardiac-arrest rule never fires
("arrest"/"code" do not occur in the query). -/
theorem arrestBonus_osaQuery (c : Case) : arrestBonus (lowerStr osaQuery) c = 0 := by
  have h1 : containsSub (lowerStr osaQuery) "arrest" = false := by decide
  have h2 : containsSub (lowerStr osaQuery) "code" = false := by decide
  simp [arrestBonus, h1, h2]

/-- Against the scenario query, the drug rule never fires (no listed drug
occurs in the query). -/
theorem drugBonus_osaQuery (c : Case) : drugBonus (lowerStr osaQuery) c = 0 := by
  have h1 : containsSub (lowerStr osaQuery) "propofol" = false := by decide
  have h2 : containsSub (lowerStr osaQuery) "midazolam" = false := by decide
  have h3 : containsSub (lowerStr osaQuery) "fentanyl" = false := by decide
  have h4 : containsSub (lowerStr osaQuery) "rocuronium" = false := by decide
  have h5 : containsSub (lowerStr osaQuery) "sevoflurane" = false := by decide
  simp [drugBonus, drugList, List.countP, List.countP.go, h1, h2, h3, h4, h5]

/-- Against the scenario query, the age rules never fire. -/
theorem ageBonus_osaQuery (c : Case) :
    pedBonus (lowerStr osaQuery) c = 0 ∧ eldBonus (lowerStr osaQuery) c = 0 := by
  have h1 : containsSub (lowerStr osaQuery) "pediatric" = false := by decide
  have h2 : containsSub (lowerStr osaQuery) "elderly" = false := by decide
  constructor <;> simp [pedBonus, eldBonus, h1, h2]

/-- The procedure rule contributes at most 4. -/
theorem procBonus_le (queryLower : String) (c : Case) : procBonus queryLower c ≤ 4 := by
  unfold procBonus
  split
  · split
    · split <;> omega
    · omega
  · omega

/-- The neuraxial rule contributes at most 5. -/
theorem neuraxBonus_le (queryLower : String) (c : Case) : neuraxBonus queryLower c ≤ 5 := by
  unfold neuraxBonus
  split
  · split <;> omega
  · omega

/-- A case with no critical incident, no "osa" in its serialized text (and so
no OSA bonuses) scores at most 9 against the scenario query. -/
theorem scoreCase_osaQuery_no_signals (D : Case)
    (hDcrit : critBonus D = 0)
    (hDosa : containsSub (lowerStr D.serializedText) "osa" = false) :
    scoreCase (lowerStr osaQuery) D ≤ 9 := by
  unfold scoreCase
  have hosa : osaBonus (lowerStr osaQuery) D = 0 := by
    simp [osaBonus, hDosa]
  have harrest := arrestBonus_osaQuery D
  have hdrug := drugBonus_osaQuery D
  have hage := ageBonus_osaQuery D
  have hproc := procBonus_le (lowerStr osaQuery) D
  have hneur := neuraxBonus_le (lowerStr osaQuery) D
  omega

/-- In the descending-sorted scored list, an entry with a strictly larger
score sits strictly earlier. -/
theorem sortedScored_bigger_earlier (query : String) (cases : List Case) (i j : ℕ)
    (hi : i < (sortedScored query cases).length)
    (hj : j < (sortedScored query cases).length)
    (hlt : ((sortedScored query cases)[i]).relevanceScore <
      ((sortedScored query cases)[j]).relevanceScore) : j < i := by
  by_contra hc
  have hij : i ≤ j := Nat.le_of_not_lt hc
  rcases Nat.eq_or_lt_of_le hij with heq | hstrict
  · subst heq
    exact absurd hlt (lt_irrefl _)
  · have hp := List.pairwise_iff_getElem.mp (sortedScored_pairwise query cases)
      i j hi hj hstrict
    have : ((sortedScored query cases)[j]).relevanceScore ≤
        ((sortedScored query cases)[i]).relevanceScore := by
      simpa [keywordLe] using hp
    omega

/-- Entries of the truncated output are entries of the sorted list at the
same position. -/
theorem findRelevantCases_getElem (query : String) (cases : List Case) (i : ℕ)
    (hi : i < (findRelevantCases query cases).length) :
    ∃ (hi' : i < (sortedScored query cases).length),
      (findRelevantCases query cases)[i] = (sortedScored query cases).get ⟨i, hi'⟩ := by
  have he := findRelevantCases_eq_take query cases
  have hi3 : i < 3 := by
    have := hi
    rw [he, List.length_take] at this
    omega
  have hi' : i < (sortedScored query cases).length := by
    have := hi
    rw [he, List.length_take] at this
    omega
  refine ⟨hi', ?_⟩
  have h1 : (findRelevantCases query cases)[i]? = (sortedScored query cases)[i]? := by
    rw [he]
    exact List.getElem?_take_of_lt hi3
  rw [List.getElem?_eq_getElem hi, List.getElem?_eq_getElem hi'] at h1
  rw [List.get_eq_getElem]
  exact Option.some.inj h1

/-! ## Claim theorems -/

/-- Claim C1: the specification claims that `cosineSimilarity` returns exactly
`0` (never `NaN`) whenever one of the vectors has zero magnitude.  The source
has no such guard: whenever one magnitude is zero the denominator
`magnitudeA * magnitudeB` is zero, the dot product is forced to `0`, and the
JavaScript division `0/0` yields `NaN` — never `0`.  This theorem establishes
what the code actually does at every such input. -/
theorem c1_zero_magnitude_gives_nan (a b : List ℚ)
    (h : magSq a = 0 ∨ magSq b = 0) : (cosineSimilarity a b).isNaN = true := by
  unfold cosineSimilarity CosSim.isNaN
  rcases h with h | h <;> simp [h]

/-- Witness for C1 at the concrete failing input `a = [0, 0]`, `b = [1, 2]`. -/
theorem c1_zero_magnitude_gives_nan_witness :
    (magSq [(0 : ℚ), 0] = 0 ∨ magSq [(1 : ℚ), 2] = 0) ∧
      (cosineSimilarity [(0 : ℚ), 0] [1, 2]).isNaN = true :=
  ⟨Or.inl (by norm_num [magSq]),
   c1_zero_magnitude_gives_nan _ _ (Or.inl (by norm_num [magSq]))⟩

/-- Sums of squares are non-negative. -/
theorem magSq_nonneg (v : List ℚ) : 0 ≤ magSq v := by
  refine List.sum_nonneg ?_
  intro x hx
  obtain ⟨a, _, rfl⟩ := List.mem_map.mp hx
  exact mul_self_nonneg a

/-- A similarity score that is not `NaN` and has a non-negative squared
denominator: the region where `ltB` agrees with the real comparison. -/
def ValidScore (s : CosSim) : Prop :=
  (∃ d, s.dot? = some d) ∧ 0 < s.den2

/-- `ltB` on explicit components with non-zero denominators. -/
theorem ltB_mk {ds dt Ds Dt : ℚ} (hDs : Ds ≠ 0) (hDt : Dt ≠ 0) :
    CosSim.ltB ⟨some ds, Ds⟩ ⟨some dt, Dt⟩ =
      (if ds < 0 then (if 0 ≤ dt then true else decide (dt * dt * Ds < ds * ds * Dt))
       else (decide (0 < dt) && decide (ds * ds * Dt < dt * dt * Ds))) := by
  simp [CosSim.ltB, hDs, hDt]

/-- The strict score comparison is asymmetric (on all representations,
`NaN` included). -/
theorem ltB_asymm (s t : CosSim) (h1 : s.ltB t = true) (h2 : t.ltB s = true) : False := by
  obtain ⟨sd, sD⟩ := s
  obtain ⟨td, tD⟩ := t
  cases sd with
  | none => simp [CosSim.ltB] at h1
  | some ds =>
    cases td with
    | none => simp [CosSim.ltB] at h1
    | some dt =>
      simp only [CosSim.ltB] at h1 h2
      by_cases hDs : sD == 0
      · simp [hDs] at h1
      · by_cases hDt : tD == 0
        · simp [hDt] at h1
        · simp only [hDs, hDt, Bool.or_self, Bool.false_or, if_false] at h1 h2
          split_ifs at h1 h2 <;> simp_all <;> nlinarith

/-- The sort relation of `search` is total. -/
theorem searchLe_total (a b : SearchResult) : searchLe a b || searchLe b a := by
  unfold searchLe
  cases h1 : a.score.ltB b.score with
  | false => simp
  | true =>
    cases h2 : b.score.ltB a.score with
    | false => simp
    | true => exact (ltB_asymm _ _ h1 h2).elim

/-- Co-transitivity of the strict comparison on valid scores: if `s < u`
then either `s < t` or `t < u`. -/
theorem ltB_cotrans (s t u : CosSim)
    (hs : ValidScore s) (ht : ValidScore t) (hu : ValidScore u)
    (h : s.ltB u = true) : s.ltB t = true ∨ t.ltB u = true := by
  obtain ⟨⟨ds, hds⟩, hDs⟩ := hs
  obtain ⟨⟨dt, hdt⟩, hDt⟩ := ht
  obtain ⟨⟨du, hdu⟩, hDu⟩ := hu
  obtain ⟨sd, sD⟩ := s
  obtain ⟨td, tD⟩ := t
  obtain ⟨ud, uD⟩ := u
  simp only at hds hdt hdu hDs hDt hDu
  subst hds hdt hdu
  rw [ltB_mk (ne_of_gt hDs) (ne_of_gt hDu)] at h
  rw [ltB_mk (ne_of_gt hDs) (ne_of_gt hDt), ltB_mk (ne_of_gt hDt) (ne_of_gt hDu)]
  rcases lt_or_le ds 0 with h1 | h1
  · -- ds < 0
    rcases lt_or_le dt 0 with h2 | h2
    · -- dt < 0
      rcases lt_or_le du 0 with h3 | h3
      · -- all negative: squared comparison chains
        rw [if_pos h1, if_neg (not_le.mpr h3)] at h
        rw [if_pos h1, if_neg (not_le.mpr h2), if_pos h2, if_neg (not_le.mpr h3)]
        simp only [decide_eq_true_eq] at h ⊢
        by_contra hcon
        push_neg at hcon
        obtain ⟨hc1, hc2⟩ := hcon
        have hdt2 : (0 : ℚ) < dt * dt := mul_pos_of_neg_of_neg h2 h2
        nlinarith [mul_le_mul hc1 hc2 (by positivity) (by positivity),
          mul_lt_mul_of_pos_left h (mul_pos hDt hdt2)]
      · -- dt < 0 ≤ du: the right disjunct holds outright
        right
        rw [if_pos h2, if_pos h3]
    · -- ds < 0 ≤ dt: the left disjunct holds outright
      left
      rw [if_pos h1, if_pos h2]
  · -- 0 ≤ ds: `s < u` forces 0 < du and a squared comparison
    rw [if_neg (not_lt.mpr h1)] at h
    simp only [Bool.and_eq_true, decide_eq_true_eq] at h
    obtain ⟨hdu, hsu⟩ := h
    rcases lt_or_le dt 0 with h2 | h2
    · -- dt < 0 < du: the right disjunct holds outright
      right
      rw [if_pos h2, if_pos (le_of_lt hdu)]
    · rcases eq_or_lt_of_le h2 with h2e | h2p
      · -- dt = 0 < du: the right disjunct holds (0 < du² · tD)
        right
        rw [if_neg (not_lt.mpr h2)]
        subst h2e
        simp only [Bool.and_eq_true, decide_eq_true_eq]
        refine ⟨hdu, ?_⟩
        have : (0 : ℚ) < du * du := mul_pos hdu hdu
        nlinarith
      · -- 0 ≤ ds, 0 < dt, 0 < du: squared comparison chains
        rw [if_neg (not_lt.mpr h1), if_neg (not_lt.mpr h2)]
        simp only [Bool.and_eq_true, decide_eq_true_eq]
        by_contra hcon
        push_neg at hcon
        obtain ⟨hc1, hc2⟩ := hcon
        have hc1' : dt * dt * sD ≤ ds * ds * tD := hc1 h2p
        have hc2' : du * du * tD ≤ dt * dt * uD := hc2 hdu
        have hdt2 : (0 : ℚ) < dt * dt := mul_pos h2p h2p
        nlinarith [mul_le_mul hc1' hc2' (by positivity) (by positivity),
          mul_lt_mul_of_pos_left hsu (mul_pos hDt hdt2)]

/-- Transitivity of the sort relation on valid scores. -/
theorem searchLe_trans_valid {a b c : SearchResult}
    (ha : ValidScore a.score) (hb : ValidScore b.score) (hc : ValidScore c.score)
    (h1 : searchLe a b = true) (h2 : searchLe b c = true) : searchLe a c = true := by
  unfold searchLe at h1 h2 ⊢
  rw [Bool.not_eq_eq_eq_not, Bool.not_true] at h1 h2 ⊢
  by_contra hcon
  rw [Bool.not_eq_false] at hcon
  rcases ltB_cotrans a.score b.score c.score ha hb hc hcon with hl | hl
  · rw [h1] at hl
    exact Bool.false_ne_true hl
  · rw [h2] at hl
    exact Bool.false_ne_true hl

/-- `mergeSort` with the `search` relation sorts any list of valid-score
results: transitivity only holds on valid scores, so the sortedness theorem
is transported along the inclusion of the valid-score subtype. -/
theorem mergeSort_searchLe_pairwise (l : List SearchResult)
    (h : ∀ r ∈ l, ValidScore r.score) :
    (l.mergeSort searchLe).Pairwise (fun a b => searchLe a b = true) := by
  have trans' : ∀ x y z : { r : SearchResult // ValidScore r.score },
      (fun a b => searchLe a.val b.val) x y → (fun a b => searchLe a.val b.val) y z →
      (fun a b => searchLe a.val b.val) x z :=
    fun x y z hxy hyz => searchLe_trans_valid x.2 y.2 z.2 hxy hyz
  have total' : ∀ x y : { r : SearchResult // ValidScore r.score },
      (fun a b => searchLe a.val b.val) x y || (fun a b => searchLe a.val b.val) y x :=
    fun x y => searchLe_total x.1 y.1
  have hmap : (l.attach.map (fun x => (⟨x.1, h x.1 x.2⟩ :
      { r : SearchResult // ValidScore r.score }))).map Subtype.val = l := by
    rw [List.map_map]
    exact List.attach_map_subtype_val l
  have hms := List.map_mergeSort (f := Subtype.val)
    (r := fun a b => searchLe a.val b.val) (s := searchLe)
    (l := l.attach.map (fun x => (⟨x.1, h x.1 x.2⟩ :
      { r : SearchResult // ValidScore r.score })))
    (fun a _ b _ => rfl)
  rw [hmap] at hms
  have hp := List.sorted_mergeSort trans' total'
    (l.attach.map (fun x => (⟨x.1, h x.1 x.2⟩ :
      { r : SearchResult // ValidScore r.score })))
  rw [← hms]
  exact hp.map _ (fun a b hab => hab)

/-- Every similarity entry built by `search` over `NaN`-free vectors has a
valid score. -/
theorem search_entries_valid (store : SimpleVectorStore) (q : List ℚ)
    (hnn : ∀ v ∈ store.vectors, (cosineSimilarity q v).isNaN = false) :
    ∀ r ∈ store.vectors.enum.map (fun p =>
      ({ score := cosineSimilarity q p.2,
         metadata := (store.metadata.get? p.1).join,
         index := p.1 } : SearchResult)), ValidScore r.score := by
  intro r hr
  obtain ⟨p, hp, rfl⟩ := List.mem_map.mp hr
  have hv : p.2 ∈ store.vectors := by
    have := List.mem_enum_iff_getElem?.mp hp
    exact List.getElem?_mem this
  have hnan := hnn p.2 hv
  unfold CosSim.isNaN at hnan
  rw [Bool.or_eq_false_iff] at hnan
  obtain ⟨hdot, hden⟩ := hnan
  constructor
  · cases hd : (cosineSimilarity q p.2).dot? with
    | none => rw [hd] at hdot; simp at hdot
    | some d => exact ⟨d, rfl⟩
  · have hne : (cosineSimilarity q p.2).den2 ≠ 0 := by
      intro hz
      rw [hz] at hden
      simp at hden
    have hnonneg : 0 ≤ (cosineSimilarity q p.2).den2 :=
      mul_nonneg (magSq_nonneg q) (magSq_nonneg p.2)
    exact lt_of_le_of_ne hnonneg (Ne.symm hne)

/-- Claim C2, counterexample to the claim as stated: `caseOSASpinal` has all
three properties the claim requires — critical incident, "OSA" in the
serialized text, "regional" in the technique — yet the scorer assigns it 50,
not 45: its block type "spinal" (entirely natural for the scenario) also
triggers the neuraxial +5 rule. -/
theorem c2_counterexample_extra_rule_scores_50 :
    (∃ o, caseOSASpinal.outcome = some o ∧ o.criticalIncident = true) ∧
    containsSub (lowerStr caseOSASpinal.serializedText) "osa" = true ∧
    (∃ an t, caseOSASpinal.anesthetic = some an ∧ an.technique = some t ∧
      containsSub t "regional" = true) ∧
    scoreCase (lowerStr osaQuery) caseOSASpinal = 50 :=
  ⟨⟨{ criticalIncident := true }, rfl, rfl⟩, by decide,
   ⟨_, "regional", rfl, rfl, by decide⟩, by decide⟩

/-- Claim C2 (amended): against the scenario query, a case with the three
scenario signals — and matching no further scoring rule (no "spinal" block
type, no procedure-name match; the arrest, drug and age rules cannot fire on
this query) — scores exactly `10 + 15 + 20 = 45`; every case lacking the
scenario signals scores at most 9; and in the scorer's ranked output such a
case never precedes the scenario case, nor survives truncation without it. -/
theorem c2_osa_spinal_scenario_amended (C D : Case) (K : List Case)
    (o : CaseOutcome) (an : Anesthetic) (t : String)
    (hCout : C.outcome = some o) (hcrit : o.criticalIncident = true)
    (hosa : containsSub (lowerStr C.serializedText) "osa" = true)
    (han : C.anesthetic = some an) (htech : an.technique = some t)
    (hreg : containsSub t "regional" = true)
    (hnoblock : blockTypeHasSpinal C = false)
    (hnoproc : procBonus (lowerStr osaQuery) C = 0)
    (hDcrit : critBonus D = 0)
    (hDosa : containsSub (lowerStr D.serializedText) "osa" = false)
    (hDreg : techniqueHasRegional D = false)
    (hCK : C ∈ K) :
    scoreCase (lowerStr osaQuery) C = 45 ∧
    scoreCase (lowerStr osaQuery) D ≤ 9 ∧
    (∀ i j (hi : i < (findRelevantCases osaQuery K).length)
        (hj : j < (findRelevantCases osaQuery K).length),
      (findRelevantCases osaQuery K)[i] =
          { caseData := D, relevanceScore := scoreCase (lowerStr osaQuery) D } →
      (findRelevantCases osaQuery K)[j] =
          ({ caseData := C, relevanceScore := 45 } : ScoredCase) → j < i) ∧
    (({ caseData := D, relevanceScore := scoreCase (lowerStr osaQuery) D } : ScoredCase)
        ∈ findRelevantCases osaQuery K →
      ({ caseData := C, relevanceScore := 45 } : ScoredCase) ∈ findRelevantCases osaQuery K) := by
  have hq1 : containsSub (lowerStr osaQuery) "osa" = true := by decide
  have hq2 : containsSub (lowerStr osaQuery) "spinal" = true := by decide
  have htechC : techniqueHasRegional C = true := by
    simp [techniqueHasRegional, han, htech, hreg]
  have hscoreC : scoreCase (lowerStr osaQuery) C = 45 := by
    unfold scoreCase
    have h1 : critBonus C = 10 := by simp [critBonus, hCout, hcrit]
    have h2 : osaBonus (lowerStr osaQuery) C = 35 := by
      simp [osaBonus, hq1, hq2, hosa, htechC]
    have h3 : neuraxBonus (lowerStr osaQuery) C = 0 := by
      simp [neuraxBonus, hq2, hnoblock]
    have h4 := arrestBonus_osaQuery C
    have h5 := drugBonus_osaQuery C
    have h6 := ageBonus_osaQuery C
    omega
  have hscoreD : scoreCase (lowerStr osaQuery) D ≤ 9 :=
    scoreCase_osaQuery_no_signals D hDcrit hDosa
  have hCmem : ({ caseData := C, relevanceScore := 45 } : ScoredCase)
      ∈ sortedScored osaQuery K := by
    rw [mem_sortedScored]
    refine List.mem_filter.mpr ⟨?_, by simp⟩
    have : ({ caseData := C, relevanceScore := scoreCase (lowerStr osaQuery) C } : ScoredCase)
        ∈ scoredCasesFor osaQuery K := List.mem_map_of_mem _ hCK
    rwa [hscoreC] at this
  have hne : ({ caseData := D, relevanceScore := scoreCase (lowerStr osaQuery) D } : ScoredCase)
      ≠ ({ caseData := C, relevanceScore := 45 } : ScoredCase) := by
    intro h
    have := congrArg ScoredCase.relevanceScore h
    simp at this
    omega
  refine ⟨hscoreC, hscoreD, ?_, ?_⟩
  · intro i j hi hj hDget hCget
    obtain ⟨hi', hieq⟩ := findRelevantCases_getElem osaQuery K i hi
    obtain ⟨hj', hjeq⟩ := findRelevantCases_getElem osaQuery K j hj
    rw [List.get_eq_getElem] at hieq hjeq
    apply sortedScored_bigger_earlier osaQuery K i j hi' hj'
    rw [← hieq, ← hjeq, hDget, hCget]
    simpa using by omega
  · intro hDmem
    obtain ⟨i, hi, hDget⟩ := List.mem_iff_getElem.mp hDmem
    obtain ⟨hi', hieq⟩ := findRelevantCases_getElem osaQuery K i hi
    rw [List.get_eq_getElem] at hieq
    obtain ⟨jc, hjc, hCget⟩ := List.mem_iff_getElem.mp hCmem
    have hjlt : jc < i := by
      apply sortedScored_bigger_earlier osaQuery K i jc hi' hjc
      rw [← hieq, hDget, hCget]
      simpa using by omega
    have hjout : jc < (findRelevantCases osaQuery K).length := lt_trans hjlt hi
    obtain ⟨hjc', hjeq⟩ := findRelevantCases_getElem osaQuery K jc hjout
    rw [List.get_eq_getElem] at hjeq
    refine List.mem_iff_getElem.mpr ⟨jc, hjout, ?_⟩
    rw [hjeq]
    exact hCget

/-- Witness for the amended C2 at a concrete two-case corpus. -/
theorem c2_osa_spinal_scenario_amended_witness :
    scoreCase (lowerStr osaQuery) caseOSA = 45 ∧
    scoreCase (lowerStr osaQuery) caseNoSignals ≤ 9 :=
  ⟨(c2_osa_spinal_scenario_amended caseOSA caseNoSignals [caseNoSignals, caseOSA]
      { criticalIncident := true } { technique := some "regional", regionalDetails := none }
      "regional" rfl rfl (by decide) rfl rfl (by decide) (by decide) (by decide)
      (by decide) (by decide) (by decide) (by simp)).1,
   (c2_osa_spinal_scenario_amended caseOSA caseNoSignals [caseNoSignals, caseOSA]
      { criticalIncident := true } { technique := some "regional", regionalDetails := none }
      "regional" rfl rfl (by decide) rfl rfl (by decide) (by decide) (by decide)
      (by decide) (by decide) (by decide) (by simp)).2.1⟩

/-- Claim C3, counterexample to the claim as stated: against the mixed store
— two zero vectors sitting between a `0.6`-cosine and a `0.8`-cosine vector —
the vector path returns its two surviving results in increasing score order
`[0.6, 0.8]`.  The zero vectors produce `NaN` similarities; the sort
comparator `b.score - a.score` returns `NaN` on them, which ECMAScript treats
as "equal", making the comparator inconsistent, and the stable sort then
leaves the genuine scores misordered, which the `> 0.3` filter cannot
repair. -/
theorem c3_counterexample_unsorted_output :
    ¬ (retrieveRelevantCases storeMix cq 5).Pairwise
        (fun x y => x.relevanceScore.ltB y.relevanceScore = false) := by
  have hle12 : searchLe (srMix 0 cv60) (srMix 1 cvZero) = true := by
    norm_num [searchLe, srMix, CosSim.ltB, cosineSimilarity, magSq, dotTrunc, cq, cv60, cvZero]
  have hle34 : searchLe (srMix 2 cvZero) (srMix 3 cv80) = true := by
    norm_num [searchLe, srMix, CosSim.ltB, cosineSimilarity, magSq, dotTrunc, cq, cvZero, cv80]
  have hle13 : searchLe (srMix 0 cv60) (srMix 2 cvZero) = true := by
    norm_num [searchLe, srMix, CosSim.ltB, cosineSimilarity, magSq, dotTrunc, cq, cv60, cvZero]
  have hle23 : searchLe (srMix 1 cvZero) (srMix 2 cvZero) = true := by
    norm_num [searchLe, srMix, CosSim.ltB, cosineSimilarity, magSq, dotTrunc, cq, cvZero]
  have hsearch : storeMix.search cq 5 =
      [srMix 0 cv60, srMix 1 cvZero, srMix 2 cvZero, srMix 3 cv80] := by
    unfold SimpleVectorStore.search
    have hlist : storeMix.vectors.enum.map (fun p =>
        ({ score := cosineSimilarity cq p.2,
           metadata := (storeMix.metadata.get? p.1).join,
           index := p.1 } : SearchResult)) =
        [srMix 0 cv60, srMix 1 cvZero, srMix 2 cvZero, srMix 3 cv80] := rfl
    show ([srMix 0 cv60, srMix 1 cvZero, srMix 2 cvZero, srMix 3 cv80].mergeSort
      searchLe).take 5 = _
    rw [mergeSort_four, mergeSort_pair, mergeSort_pair,
      if_pos hle12, if_pos hle34, List.cons_merge_cons, if_pos hle13,
      List.cons_merge_cons, if_pos hle23, List.nil_merge]
    rfl
  have hgt60 : (cosineSimilarity cq cv60).gtQ (3 / 10) = true := by
    norm_num [CosSim.gtQ, cosineSimilarity, magSq, dotTrunc, cq, cv60]
  have hgt80 : (cosineSimilarity cq cv80).gtQ (3 / 10) = true := by
    norm_num [CosSim.gtQ, cosineSimilarity, magSq, dotTrunc, cq, cv80]
  have hgtZ : (cosineSimilarity cq cvZero).gtQ (3 / 10) = false := by
    norm_num [CosSim.gtQ, cosineSimilarity, magSq, dotTrunc, cq, cvZero]
  have hout : retrieveRelevantCases storeMix cq 5 =
      [{ metadata := none, relevanceScore := cosineSimilarity cq cv60 },
       { metadata := none, relevanceScore := cosineSimilarity cq cv80 }] := by
    unfold retrieveRelevantCases
    rw [hsearch]
    simp [List.filter, hgt60, hgt80, hgtZ, srMix]
  rw [hout]
  intro hcon
  have hlt : (cosineSimilarity cq cv60).ltB (cosineSimilarity cq cv80) = true := by
    norm_num [CosSim.ltB, cosineSimilarity, magSq, dotTrunc, cq, cv60, cv80]
  have hrel : (cosineSimilarity cq cv60).ltB (cosineSimilarity cq cv80) = false :=
    List.rel_of_pairwise_cons hcon (List.mem_cons_self _ _)
  rw [hlt] at hrel
  simp at hrel

/-- Claim C3 (amended): for every store, query embedding and `topK`, the
vector path returns at most `topK` results, every returned score is strictly
above the `0.3` cutoff, and — provided no stored vector produces a `NaN`
similarity against the query (zero-magnitude or too-short vectors) — the
results are sorted non-increasing by score.  On the keyword path, every
returned score is strictly positive and the output is sorted non-increasing.
The `NaN` proviso is necessary by the counterexample above. -/
theorem c3_retrieve_contract_amended (store : SimpleVectorStore)
    (queryEmbedding : List ℚ) (topK : ℕ) :
    (retrieveRelevantCases store queryEmbedding topK).length ≤ topK ∧
    (∀ r ∈ retrieveRelevantCases store queryEmbedding topK,
      r.relevanceScore.gtQ (3 / 10) = true) ∧
    ((∀ v ∈ store.vectors, (cosineSimilarity queryEmbedding v).isNaN = false) →
      (retrieveRelevantCases store queryEmbedding topK).Pairwise
        (fun x y => x.relevanceScore.ltB y.relevanceScore = false)) ∧
    (∀ (query : String) (cases : List Case) (x : ScoredCase),
      x ∈ findRelevantCases query cases → 0 < x.relevanceScore) ∧
    (∀ (query : String) (cases : List Case),
      (findRelevantCases query cases).Pairwise
        (fun a b => b.relevanceScore ≤ a.relevanceScore)) := by
  refine ⟨?_, ?_, ?_, ?_, ?_⟩
  · unfold retrieveRelevantCases SimpleVectorStore.search
    simp only [List.length_map]
    exact le_trans (List.length_filter_le _ _) (List.length_take_le _ _)
  · intro r hr
    unfold retrieveRelevantCases at hr
    simp only [List.mem_map] at hr
    obtain ⟨r0, hr0, rfl⟩ := hr
    exact (List.mem_filter.mp hr0).2
  · intro hnn
    unfold retrieveRelevantCases SimpleVectorStore.search
    simp only
    have hp := mergeSort_searchLe_pairwise _ (search_entries_valid store queryEmbedding hnn)
    exact ((hp.sublist (List.take_sublist topK _)).sublist (List.filter_sublist _)).map _
      (fun a b hab => by
        simp only
        unfold searchLe at hab
        rwa [Bool.not_eq_eq_eq_not, Bool.not_true] at hab)
  · intro query cases x hx
    exact mem_filteredScored_pos (mem_findRelevantCases hx)
  · intro query cases
    rw [findRelevantCases_eq_take]
    have h := (sortedScored_pairwise query cases).sublist (List.take_sublist 3 _)
    exact h.imp (fun hab => by simpa [keywordLe] using hab)

/-- Witness for C3 exercising the `NaN`-free proviso at a concrete store. -/
theorem c3_retrieve_contract_amended_witness :
    (retrieveRelevantCases storeDim2 [1, 0] 5).Pairwise
      (fun x y => x.relevanceScore.ltB y.relevanceScore = false) :=
  (c3_retrieve_contract_amended storeDim2 [1, 0] 5).2.2.1 (by
    intro v hv
    simp only [storeDim2, List.mem_singleton] at hv
    subst hv
    norm_num [cosineSimilarity, CosSim.isNaN, magSq, dotTrunc])

/-- Claim C4: the keyword scorer's output contract.  For every query and
corpus: (1) every returned case has strictly positive score — a case scoring
exactly `0` never appears; (2) the output is sorted descending by score;
(3) at most 3 results are returned (the truncation limit is the constant 3 in
the source — the claimed "caller-specified" default); (4) the output is
exactly the 3-element prefix of the stable descending sort of the
strictly-positive-scored cases; (5) stability: two equal-scored cases that
appear in corpus order in the filtered list stay in that order after
sorting. -/
theorem c4_keyword_scorer_contract (query : String) (cases : List Case) :
    (∀ x ∈ findRelevantCases query cases, 0 < x.relevanceScore) ∧
    (findRelevantCases query cases).Pairwise
      (fun a b => b.relevanceScore ≤ a.relevanceScore) ∧
    (findRelevantCases query cases).length ≤ 3 ∧
    findRelevantCases query cases = (sortedScored query cases).take 3 ∧
    (∀ x y : ScoredCase, x.relevanceScore = y.relevanceScore →
      [x, y].Sublist (filteredScored query cases) →
      [x, y].Sublist (sortedScored query cases)) := by
  refine ⟨?_, ?_, ?_, findRelevantCases_eq_take query cases, ?_⟩
  · intro x hx
    exact mem_filteredScored_pos (mem_findRelevantCases hx)
  · rw [findRelevantCases_eq_take]
    have h := (sortedScored_pairwise query cases).sublist (List.take_sublist 3 _)
    exact h.imp (fun hab => by simpa [keywordLe] using hab)
  · rw [findRelevantCases_eq_take]
    simp [List.length_take]
  · intro x y hscore hsub
    unfold sortedScored
    refine List.sublist_mergeSort keywordLe_trans keywordLe_total ?_ hsub
    exact List.pairwise_pair.mpr (by simp [keywordLe, hscore])

/-- Witness for C4 at a concrete query and corpus. -/
theorem c4_keyword_scorer_contract_witness :
    (findRelevantCases "propofol" []).length ≤ 3 :=
  (c4_keyword_scorer_contract "propofol" []).2.2.1

/-- Claim C8: a case flagged as a critical incident scores at least 10
against every query: the `+10` is unconditional and every other rule only
adds a non-negative amount. -/
theorem c8_critical_incident_floor (queryLower : String) (c : Case)
    (o : CaseOutcome) (ho : c.outcome = some o) (hcrit : o.criticalIncident = true) :
    10 ≤ scoreCase queryLower c := by
  unfold scoreCase
  have h : critBonus c = 10 := by
    simp [critBonus, ho, hcrit]
  omega

/-- Witness for C8 at a concrete critical-incident case and query. -/
theorem c8_critical_incident_floor_witness :
    10 ≤ scoreCase "anything"
      { patient := none, procedure := none, anesthetic := none,
        complications := none, outcome := some { criticalIncident := true },
        serializedText := "" } :=
  c8_critical_incident_floor "anything" _ { criticalIncident := true } rfl rfl

/-- Claim C9: on an empty corpus both retrieval paths return the empty list
(and, being total functions, raise nothing): the vector path over the empty
store for every query embedding and every `topK`, and the keyword path over
the empty case array for every query. -/
theorem c9_empty_corpus_returns_empty :
    ∀ (queryEmbedding : List ℚ) (topK : ℕ) (query : String),
      retrieveRelevantCases { vectors := [], metadata := [] } queryEmbedding topK = [] ∧
      findRelevantCases query [] = [] := by
  intro queryEmbedding topK query
  constructor
  · simp [retrieveRelevantCases, SimpleVectorStore.search]
  · rfl

/-- Claim C10: `formatCasesForPrompt` returns the empty string both for an
absent (`undefined`/`null`) input and for the empty case list, so an empty
retrieval contributes no case-context block to the prompt. -/
theorem c10_format_empty_is_empty_string :
    formatCasesForPrompt none = "" ∧ formatCasesForPrompt (some []) = "" :=
  ⟨rfl, rfl⟩

/-- A non-empty case list always produces a non-empty prompt block (it starts
with the fixed header). -/
theorem formatCasesForPrompt_ne_empty (cs : List RankedCase) (h : cs ≠ []) :
    formatCasesForPrompt (some cs) ≠ "" := by
  show (if cs.length = 0 then "" else
    promptHeader ++ String.join (cs.enum.map (fun p => caseBlock p.1 p.2)) ++ promptFooter) ≠ ""
  rw [if_neg (fun hz => h (List.length_eq_zero.mp hz))]
  intro hcon
  have hlen := congrArg String.length hcon
  simp only [String.length_append] at hlen
  have hhead : 0 < promptHeader.length := by decide
  have hnil : ("" : String).length = 0 := rfl
  omega

/-- `magSq` of a list of zeros is zero. -/
theorem magSq_eq_zero_of_all_zero {v : List ℚ} (h : ∀ x ∈ v, x = 0) : magSq v = 0 := by
  refine List.sum_eq_zero ?_
  intro x hx
  obtain ⟨a, ha, rfl⟩ := List.mem_map.mp hx
  rw [h a ha]
  ring

/-- `magSq` is positive as soon as one entry is non-zero. -/
theorem magSq_pos_of_mem {v : List ℚ} {x : ℚ} (hx : x ∈ v) (hne : x ≠ 0) :
    0 < magSq v := by
  induction v with
  | nil => cases hx
  | cons a l ih =>
    have hcons : magSq (a :: l) = a * a + magSq l := by simp [magSq]
    rcases List.mem_cons.mp hx with rfl | hmem
    · rw [hcons]
      exact add_pos_of_pos_of_nonneg (mul_self_pos.mpr hne) (magSq_nonneg l)
    · rw [hcons]
      exact add_pos_of_nonneg_of_pos (mul_self_nonneg a) (ih hmem)

/-- The occurrence count in the empty text is zero. -/
theorem countOccur_nil (pat : List Char) : countOccur [] pat = 0 := by
  unfold countOccur
  split
  · rfl
  · rfl

/-- A score whose squared denominator is not positive never beats any
non-negative threshold (the `NaN`/zero-denominator guard of `gtQ`). -/
theorem gtQ_false_of_den2_nonpos (s : CosSim) (h : s.den2 ≤ 0) (q : ℚ) :
    s.gtQ q = false := by
  unfold CosSim.gtQ
  cases s.dot? with
  | none => rfl
  | some d => simp [not_lt.mpr h]

/-- The dot product of a vector with itself is its squared magnitude. -/
theorem dotTrunc_self (v : List ℚ) : dotTrunc v v = magSq v := by
  induction v with
  | nil => rfl
  | cons a l ih => simp [dotTrunc, magSq, List.zip_cons_cons] at ih ⊢; exact ih

/-- Self-similarity of a vector: `dot = magSq v`, `den2 = (magSq v)²`. -/
theorem cosineSimilarity_self (v : List ℚ) :
    cosineSimilarity v v = { dot? := some (magSq v), den2 := magSq v * magSq v } := by
  simp [cosineSimilarity, dotTrunc_self]

/-- Every entry of the all-zero-draws fallback embedding of the empty query
is zero. -/
theorem createSimpleEmbedding_randZero_empty_all_zero :
    ∀ x ∈ createSimpleEmbedding randZero "", x = 0 := by
  intro x hx
  unfold createSimpleEmbedding at hx
  rcases List.mem_append.mp hx with hl | hr
  · obtain ⟨t, _, rfl⟩ := List.mem_map.mp hl
    have : lowerStr "" = "" := rfl
    rw [this]
    show ((countOccur ("" : String).data (lowerStr t).data : ℚ) * (1 / 10)) = 0
    rw [countOccur_nil]
    norm_num
  · obtain ⟨i, _, rfl⟩ := List.mem_map.mp hr
    show randZero i * (1 / 100) = 0
    simp [randZero]

/-- The half-draws fallback embedding of the empty query has positive
squared magnitude (its padding entries are `1/200`). -/
theorem magSq_embHalf_pos : 0 < magSq embHalf := by
  refine magSq_pos_of_mem (x := 1 / 200) ?_ (by norm_num)
  unfold embHalf createSimpleEmbedding
  refine List.mem_append.mpr (Or.inr ?_)
  refine List.mem_map.mpr ⟨0, ?_, by norm_num [randHalf]⟩
  refine List.mem_range.mpr ?_
  have : (medicalTerms.map (fun term =>
      (countOccur (lowerStr "").data (lowerStr term).data : ℚ) * (1 / 10))).length = 45 := by
    rw [List.length_map]
    rfl
  rw [this]
  norm_num

/-- Claim C5, counterexample to the claim as stated: with the vector store
initialized and the external embedder throwing, the chat endpoint does NOT
fall back to keyword scoring — it stays on the vector path with the local
fallback embedding (here returning no cases), while keyword scoring over the
same corpus would have returned the critical-incident case. -/
theorem c5_counterexample_fallback_is_not_keyword :
    chatCaseSelection true envFail randZero { embeddingCache := [] }
        { vectors := [], metadata := [] } [caseCrit] "airway" = CaseSelection.rag [] ∧
    findRelevantCases "airway" [caseCrit] =
      [{ caseData := caseCrit, relevanceScore := 10 }] ∧
    CaseSelection.rag [] ≠
      CaseSelection.keyword (findRelevantCases "airway" [caseCrit]) := by
  refine ⟨?_, ?_, ?_⟩
  · simp [chatCaseSelection, retrieveRelevantCasesFull, generateEmbedding, envFail,
      retrieveRelevantCases, SimpleVectorStore.search, List.lookup]
  · have hs : scoreCase (lowerStr "airway") caseCrit = 10 := by decide
    simp [findRelevantCases, sortedScored, filteredScored, scoredCasesFor, hs,
      List.filter, List.mergeSort_singleton]
  · intro hcon
    exact CaseSelection.noConfusion hcon

/-- Claim C5 (amended): when the external embedder throws (key configured,
call fails, no cached embedding), `generateEmbedding` silently substitutes
the local fallback embedding and the chat endpoint still serves the RAG
path — a ranked (possibly empty) list whose every score passed the `0.3`
threshold; the failure is never propagated.  Keyword scoring over the raw
corpus is selected only when the vector store is not initialized, regardless
of the embedder's health. -/
theorem c5_embedding_failure_amended (env : EmbedEnv) (rand : ℕ → ℚ) (st : RAGState)
    (store : SimpleVectorStore) (sampleCases : List Case) (query : String)
    (hkey : env.apiKeySet = true) (hfail : env.apiResponse query = .error ())
    (hmiss : st.embeddingCache.lookup query = none) :
    chatCaseSelection true env rand st store sampleCases query =
      CaseSelection.rag (retrieveRelevantCases store (createSimpleEmbedding rand query) 5) ∧
    (∀ r ∈ (retrieveRelevantCasesFull env rand st store query 5).1,
      r.relevanceScore.gtQ (3 / 10) = true) ∧
    chatCaseSelection false env rand st store sampleCases query =
      CaseSelection.keyword (findRelevantCases query sampleCases) := by
  have hemb : generateEmbedding env rand st query = (createSimpleEmbedding rand query, st) := by
    unfold generateEmbedding
    rw [hmiss, hkey, hfail]
    rfl
  refine ⟨?_, ?_, ?_⟩
  · simp [chatCaseSelection, retrieveRelevantCasesFull, hemb]
  · intro r hr
    simp only [retrieveRelevantCasesFull, hemb] at hr
    unfold retrieveRelevantCases at hr
    simp only [List.mem_map] at hr
    obtain ⟨r0, hr0, rfl⟩ := hr
    exact (List.mem_filter.mp hr0).2
  · simp [chatCaseSelection]

/-- Witness for the amended C5 at a concrete failing environment. -/
theorem c5_embedding_failure_amended_witness :
    chatCaseSelection true envFail randZero { embeddingCache := [] }
        { vectors := [], metadata := [] } [] "q" =
      CaseSelection.rag (retrieveRelevantCases { vectors := [], metadata := [] }
        (createSimpleEmbedding randZero "q") 5) :=
  (c5_embedding_failure_amended envFail randZero { embeddingCache := [] }
    { vectors := [], metadata := [] } [] "q" rfl rfl rfl).1

/-- The first run of the C6 scenario (all-zero draws, no key, empty cache)
retrieves nothing: the query embedding is the zero vector, every similarity
is `NaN`, and the threshold filter discards `NaN`. -/
theorem c6_run1_empty :
    (retrieveRelevantCasesFull envNoKey randZero { embeddingCache := [] }
      storeHalf "" 5).1 = [] := by
  have hz : magSq (createSimpleEmbedding randZero "") = 0 :=
    magSq_eq_zero_of_all_zero createSimpleEmbedding_randZero_empty_all_zero
  have hgt : (cosineSimilarity (createSimpleEmbedding randZero "") embHalf).gtQ (3 / 10)
      = false := by
    refine gtQ_false_of_den2_nonpos _ ?_ _
    show magSq (createSimpleEmbedding randZero "") * magSq embHalf ≤ 0
    rw [hz]
    ring_nf
    exact le_refl 0
  show retrieveRelevantCases storeHalf (createSimpleEmbedding randZero "") 5 = []
  unfold retrieveRelevantCases SimpleVectorStore.search
  simp [storeHalf, List.mergeSort_singleton, List.filter, hgt]

/-- The second run of the C6 scenario (all-halves draws, same store,
state threaded from the first run) retrieves the stored case with perfect
self-similarity. -/
theorem c6_run2_nonempty :
    (retrieveRelevantCasesFull envNoKey randHalf
      (retrieveRelevantCasesFull envNoKey randZero { embeddingCache := [] }
        storeHalf "" 5).2 storeHalf "" 5).1 =
    [{ metadata := none, relevanceScore := cosineSimilarity embHalf embHalf }] := by
  have hst : (retrieveRelevantCasesFull envNoKey randZero { embeddingCache := [] }
      storeHalf "" 5).2 = { embeddingCache := [] } := rfl
  rw [hst]
  have hgt : (cosineSimilarity embHalf embHalf).gtQ (3 / 10) = true := by
    rw [cosineSimilarity_self]
    unfold CosSim.gtQ
    have hm := magSq_embHalf_pos
    simp only [decide_eq_true_eq, Bool.and_eq_true]
    refine ⟨⟨⟨mul_pos hm hm, by norm_num⟩, hm⟩, ?_⟩
    nlinarith
  show retrieveRelevantCases storeHalf (createSimpleEmbedding randHalf "") 5 = _
  unfold retrieveRelevantCases SimpleVectorStore.search
  simp [storeHalf, List.mergeSort_singleton, List.filter]
  rw [show createSimpleEmbedding randHalf "" = embHalf from rfl, hgt]
  simp

/-- Claim C6, counterexample to the claim as stated: with no API key
configured, two runs of `retrieveRelevantCases` + `formatCasesForPrompt` on
the same query, corpus and store produce different bytes — the fallback
embedder draws fresh unseeded `Math.random()` padding on every call and its
result is never cached, so the first run (zero draws) retrieves nothing while
the second (half draws) retrieves the stored case.  In particular the
fallback embedder is not a pure function of the text: the two draw streams
give different vectors for the same text. -/
theorem c6_counterexample_two_runs_differ :
    formatCasesForPrompt (some (retrieveRelevantCasesFull envNoKey randZero
        { embeddingCache := [] } storeHalf "" 5).1) ≠
      formatCasesForPrompt (some (retrieveRelevantCasesFull envNoKey randHalf
        (retrieveRelevantCasesFull envNoKey randZero { embeddingCache := [] }
          storeHalf "" 5).2 storeHalf "" 5).1) ∧
    createSimpleEmbedding randZero "" ≠ createSimpleEmbedding randHalf "" := by
  constructor
  · rw [c6_run1_empty, c6_run2_nonempty]
    intro hcon
    exact formatCasesForPrompt_ne_empty _ (List.cons_ne_nil _ _) hcon.symm
  · intro hcon
    have h45 := congrArg (fun l => l[45]?) hcon
    have hlen : (medicalTerms.map (fun term =>
        (countOccur (lowerStr "").data (lowerStr term).data : ℚ) * (1 / 10))).length = 45 := by
      rw [List.length_map]; rfl
    simp only [createSimpleEmbedding] at h45
    rw [List.getElem?_append_right (by rw [hlen]), List.getElem?_append_right (by rw [hlen])]
      at h45
    rw [hlen] at h45
    simp only [List.getElem?_map, List.getElem?_range (by norm_num : 45 - 45 < 384 - 45)]
      at h45
    simp only [Option.map_some'] at h45
    have := Option.some.inj h45
    norm_num [randZero, randHalf] at this

/-- Claim C6 (amended): when the external embedder is configured and answers
successfully (or the query is already cached), two successive runs of
retrieval + formatting with identical query, store and corpus produce
byte-identical prompts: the first successful response is cached and the
second run reuses it, and everything downstream of the embedding is a pure
function.  Without that proviso determinism fails (see the counterexample):
the fallback embedder's padding comes from unseeded `Math.random()` draws and
is never cached. -/
theorem c6_cached_determinism_amended (env : EmbedEnv) (rand1 rand2 : ℕ → ℚ)
    (st : RAGState) (store : SimpleVectorStore) (query : String) (topK : ℕ) (e : List ℚ)
    (hkey : env.apiKeySet = true) (hok : env.apiResponse query = .ok e) :
    formatCasesForPrompt (some (retrieveRelevantCasesFull env rand1 st store query topK).1) =
      formatCasesForPrompt (some (retrieveRelevantCasesFull env rand2
        (retrieveRelevantCasesFull env rand1 st store query topK).2 store query topK).1) := by
  cases hcache : st.embeddingCache.lookup query with
  | some e0 =>
    have h1 : generateEmbedding env rand1 st query = (e0, st) := by
      unfold generateEmbedding
      rw [hcache]
    simp [retrieveRelevantCasesFull, h1, generateEmbedding, hcache]
  | none =>
    have h1 : generateEmbedding env rand1 st query =
        (e, { embeddingCache := (query, e) :: st.embeddingCache }) := by
      unfold generateEmbedding
      rw [hcache, hkey, hok]
      rfl
    have h2 : generateEmbedding env rand2
        { embeddingCache := (query, e) :: st.embeddingCache } query = (e,
          { embeddingCache := (query, e) :: st.embeddingCache }) := by
      unfold generateEmbedding
      simp [List.lookup]
    simp [retrieveRelevantCasesFull, h1, h2]

/-- Witness for the amended C6 at a concrete succeeding environment. -/
theorem c6_cached_determinism_amended_witness :
    formatCasesForPrompt (some (retrieveRelevantCasesFull envOk randZero
        { embeddingCache := [] } storeDim2 "q" 5).1) =
      formatCasesForPrompt (some (retrieveRelevantCasesFull envOk randHalf
        (retrieveRelevantCasesFull envOk randZero { embeddingCache := [] }
          storeDim2 "q" 5).2 storeDim2 "q" 5).1) :=
  c6_cached_determinism_amended envOk randZero randHalf { embeddingCache := [] }
    storeDim2 "q" 5 [1] rfl rfl

/-- Claim C7, counterexample to the claim as stated: adding a 3-dimensional
vector to a store of 2-dimensional vectors raises nothing and does not leave
the index unchanged — the mismatched entry is appended and is immediately
visible to subsequent searches, where it even clears the relevance
threshold (while the incompatible old entry now scores `NaN`). -/
theorem c7_counterexample_mismatch_appended :
    (storeDim2.addVectors [[1, 2, 3]] [metaB]).vectors = [[1, 0], [1, 2, 3]] ∧
    (storeDim2.addVectors [[1, 2, 3]] [metaB]).vectors ≠ storeDim2.vectors ∧
    ∃ r ∈ (storeDim2.addVectors [[1, 2, 3]] [metaB]).search [1, 2, 3] 5,
      r.metadata = some metaB ∧ r.score.gtQ (3 / 10) = true := by
  have hstore : storeDim2.addVectors [[1, 2, 3]] [metaB] =
      { vectors := [[1, 0], [1, 2, 3]], metadata := [some metaA, some metaB] } := by
    simp [SimpleVectorStore.addVectors, storeDim2, List.range_succ]
  refine ⟨by rw [hstore], by rw [hstore]; simp [storeDim2], ?_⟩
  rw [hstore]
  have hle : searchLe
      { score := cosineSimilarity [1, 2, 3] [1, 0], metadata := some metaA, index := 0 }
      { score := cosineSimilarity [1, 2, 3] [1, 2, 3], metadata := some metaB, index := 1 }
      = true := by
    norm_num [searchLe, CosSim.ltB, cosineSimilarity]
  have hsearch : SimpleVectorStore.search
      { vectors := [[1, 0], [1, 2, 3]], metadata := [some metaA, some metaB] } [1, 2, 3] 5 =
      [{ score := cosineSimilarity [1, 2, 3] [1, 0], metadata := some metaA, index := 0 },
       { score := cosineSimilarity [1, 2, 3] [1, 2, 3], metadata := some metaB, index := 1 }] := by
    unfold SimpleVectorStore.search
    show ([{ score := cosineSimilarity [1, 2, 3] [1, 0], metadata := some metaA, index := 0 },
       { score := cosineSimilarity [1, 2, 3] [1, 2, 3], metadata := some metaB,
         index := 1 }].mergeSort searchLe).take 5 = _
    rw [mergeSort_pair, if_pos hle]
    rfl
  rw [hsearch]
  refine ⟨{ score := cosineSimilarity [1, 2, 3] [1, 2, 3], metadata := some metaB, index := 1 },
    by simp, rfl, ?_⟩
  norm_num [CosSim.gtQ, cosineSimilarity, magSq, dotTrunc]

/-- Claim C7 (amended): `addVectors` performs no dimension validation at all:
for every store and every batch, the embeddings are appended unconditionally
(with positionally-matched metadata, `undefined` past the end of the metadata
list), and a subsequent search enumerates every old and new vector. -/
theorem c7_addvectors_no_validation_amended (store : SimpleVectorStore)
    (embeddings : List (List ℚ)) (metadataList : List Metadata) (q : List ℚ) :
    (store.addVectors embeddings metadataList).vectors = store.vectors ++ embeddings ∧
    ((store.addVectors embeddings metadataList).search q
        ((store.vectors ++ embeddings).length)).length =
      store.vectors.length + embeddings.length := by
  constructor
  · rfl
  · unfold SimpleVectorStore.search SimpleVectorStore.addVectors
    simp [List.length_take, List.enum_length]
